import Mathlib

/-!
Verification of the threeML plugin prototype, the binner contract and the
path utilities against the repository's specification.

The Python source is shallowly embedded: pure functions become Lean
functions, stateful methods become functions from the old state to the pair
(new state, raised error if any) — a raised Python exception leaves the
object in its pre-call state, which the pair encoding makes explicit.
Python `float` times are modelled as rationals.
-/

namespace ThreeML

/-- Python runtime values, to the depth that the embedded code inspects
them: the plugin interface only ever asks `isinstance(v, dict)` and stores
values opaquely, so dictionaries carry opaque entries and every other
runtime type is a separate constructor. -/
inductive PyVal where
  | dict (entries : List (String × Nat))
  | str (s : String)
  | int (n : Int)
  | rat (q : ℚ)
  | pyNone
  deriving DecidableEq

/-- The Python exception classes raised by the embedded code.  The spec's
`ValidationError` is a class of `AssertionError`, `ConfigurationError` a
class of `RuntimeError`, and `NotComputedError` a class of
`AttributeError`; the embedding records the base class and the message. -/
inductive PyError where
  | assertionError (msg : String)
  | valueError (msg : String)
  | runtimeError (msg : String)
  | attributeError (msg : String)
  deriving DecidableEq

/-- `isinstance(v, dict)` of the Python runtime. -/
def PyVal.isDict : PyVal → Bool
  | .dict _ => true
  | _ => false

/-- ASCII lower-casing of one character, as Python's `str.lower` acts on
the ASCII range (the only range the embedded checks exercise). -/
def pyCharLower (c : Char) : Char :=
  if 'A' ≤ c ∧ c ≤ 'Z' then Char.ofNat (c.toNat + 32) else c

/-- Python's `name.lower()` on the character data of a string. -/
def pyLower (s : String) : String := String.mk (s.data.map pyCharLower)

/-- Characters allowed after the first position of a Python identifier. -/
def isIdentChar (c : Char) : Bool := c.isAlphanum || c = '_'

/-- Characters allowed in the first position of a Python identifier. -/
def isIdentStart (c : Char) : Bool := c.isAlpha || c = '_'

/-- A Python identifier: nonempty, a letter or underscore first, letters,
digits or underscores afterwards. -/
def isPyIdentifier (s : String) : Bool :=
  match s.data with
  | [] => false
  | c :: cs => isIdentStart c && cs.all isIdentChar

/-- Modelled from the spec: `invalid_plugin_name` is imported from
`threeML.io.logging`, which is not among the source files.  The spec
requires plugin names to be valid identifiers and classes invalid names as
`ValidationError`, a class of `AssertionError`. -/
def invalid_plugin_name (name : String) : Option PyError :=
  if isPyIdentifier name then Option.none
  else some (PyError.assertionError "invalid plugin name")

/-- The state held by a `PluginPrototype` instance: `_name`,
`_nuisance_parameters` and `_tag`. -/
structure PluginState where
  name : String
  nuisanceParameters : PyVal
  tag : Option (PyVal × PyVal × PyVal)
  deriving DecidableEq

/-- `PluginPrototype.__init__`: validates the name with
`invalid_plugin_name`, rejects any casing of the reserved name "total"
with an `AssertionError`, stores the name, rejects a non-dict
`nuisance_parameters` argument with an `AssertionError`, stores the map
and initialises `_tag` to `None`. -/
def PluginPrototype.init (name : String) (nuisance_parameters : PyVal) :
    Except PyError PluginState :=
  match invalid_plugin_name name with
  | some e => Except.error e
  | Option.none =>
      if pyLower name = "total" then
        Except.error
          (PyError.assertionError "Sorry, you cannot use 'total' as name for a plugin.")
      else if !nuisance_parameters.isDict then
        Except.error
          (PyError.assertionError "nuisance_parameters are not a dict and are invalid!")
      else
        Except.ok
          { name := name, nuisanceParameters := nuisance_parameters, tag := Option.none }

/-- The `name` property: returns `self._name`. -/
def PluginState.getName (st : PluginState) : String := st.name

/-- The `nuisance_parameters` property: returns
`self._nuisance_parameters`. -/
def PluginState.get_nuisance_parameters (st : PluginState) : PyVal :=
  st.nuisanceParameters

/-- `PluginPrototype.update_nuisance_parameters`: raises an
`AssertionError` when the argument is not a dict — before the assignment,
so the stored map is untouched — and otherwise replaces the stored map
wholesale. -/
def PluginState.update_nuisance_parameters (st : PluginState)
    (new_nuisance_parameters : PyVal) : PluginState × Option PyError :=
  if !new_nuisance_parameters.isDict then
    (st, some (PyError.assertionError "nuisance_parameters are not a dict and are invalid!"))
  else
    ({ st with nuisanceParameters := new_nuisance_parameters }, Option.none)

/-- `PluginPrototype._get_tag`: returns `self._tag`. -/
def PluginState.get_tag (st : PluginState) : Option (PyVal × PyVal × PyVal) :=
  st.tag

/-- `PluginPrototype._set_tag`: a 2-element spec stores
`(independent_variable, start, None)`, a 3-element spec stores
`(independent_variable, start, end)`, any other length raises `ValueError`
before the assignment, leaving `_tag` untouched.  (The isinstance check on
the first element only logs a warning and changes nothing.) -/
def PluginState.set_tag (st : PluginState) (spec : List PyVal) :
    PluginState × Option PyError :=
  match spec with
  | [independent_variable, start] =>
      ({ st with tag := some (independent_variable, start, PyVal.pyNone) }, Option.none)
  | [independent_variable, start, e] =>
      ({ st with tag := some (independent_variable, start, e) }, Option.none)
  | _ =>
      (st, some (PyError.valueError "Tag specification should be (independent_variable, start[, end])"))

/-- Modelled from the spec: the fixed-width (`constant`) binner lives in the
light-curve module, which is not among the source files.  The spec: "Bins =
[start, start+dt), [start+dt, start+2dt), … clipped to stop; the final
partial bin is dropped if shorter than `dt` (only complete bins are
retained)".  The generator walks left to right and emits a bin only when it
fits entirely before `stop`; the fuel argument bounds the recursion and is
chosen large enough below. -/
def constantBinsAux (stop dt : ℚ) : ℚ → Nat → List (ℚ × ℚ)
  | _, 0 => []
  | cur, fuel + 1 =>
      if cur + dt ≤ stop then (cur, cur + dt) :: constantBinsAux stop dt (cur + dt) fuel
      else []

/-- Modelled from the spec: fixed-width binning of `[start, stop]` with
width `dt`, complete bins only. -/
def constantBins (start stop dt : ℚ) : List (ℚ × ℚ) :=
  constantBinsAux stop dt start (⌊(stop - start) / dt⌋.toNat)

/-- Insert a value into a strictly increasing list, keeping it strictly
increasing (duplicates collapse). -/
def insertT (x : ℚ) : List ℚ → List ℚ
  | [] => [x]
  | y :: ys =>
      if x < y then x :: y :: ys
      else if x = y then y :: ys
      else y :: insertT x ys

/-- Sort a list of candidate edge times into a strictly increasing list. -/
def sortUnique : List ℚ → List ℚ
  | [] => []
  | x :: xs => insertT x (sortUnique xs)

/-- Consecutive edges of a partition, paired into bins. -/
def binsFromEdges : List ℚ → List (ℚ × ℚ)
  | a :: b :: rest => (a, b) :: binsFromEdges (b :: rest)
  | _ => []

/-- The bin-set invariant of the spec: every bin runs forward and
consecutive bins do not overlap. -/
def binsOrdered (bins : List (ℚ × ℚ)) : Prop :=
  (∀ b ∈ bins, b.1 < b.2) ∧ List.Chain' (fun b c => b.2 ≤ c.1) bins

/-- Modelled from the spec: both adaptive binners return a partition of the
active interval whose interior edges are event times strictly inside
`(start, stop)` — the significance binner closes a bin at the event where
the accumulated significance reaches `sigma`, Bayesian blocks places
changepoints at event times.  The candidate times are filtered to the open
interval, sorted and deduplicated, and closed with the interval ends. -/
def partitionBins (start stop : ℚ) (cps : List ℚ) : List (ℚ × ℚ) :=
  binsFromEdges
    (start :: sortUnique (cps.filter fun t => decide (start < t) && decide (t < stop)) ++ [stop])

/-- The keyword arguments `create_time_bins` recognises across its three
methods; an absent field is an argument that was not passed. -/
structure BinKwargs where
  dt : Option ℚ
  sigma : Option ℚ
  p0 : Option ℚ
  deriving DecidableEq

/-- The binning-related state of a TTE instance: the event arrival times of
the current selection, whether a background fit exists, and the cached bins
(`None` until a `create_time_bins` call succeeds). -/
structure BinnerState where
  events : List ℚ
  bgFitted : Bool
  bins : Option (List (ℚ × ℚ))
  deriving DecidableEq

/-- A freshly constructed instance: no bins have been computed. -/
def BinnerState.initial (events : List ℚ) (bgFitted : Bool) : BinnerState :=
  { events := events, bgFitted := bgFitted, bins := Option.none }

/-- Modelled from the spec: `create_time_bins` is part of the event-list
module, which is not among the source files.  Validation follows the spec:
an unrecognised method, or a recognised method whose passed keywords are
not exactly its own required parameter (`constant`/`dt`,
`significance`/`sigma`, `bayesblocks`/`p0`), or a parameter outside its
documented range (`dt > 0`, `sigma > 0`, `0 < p0 < 1`), raises
`RuntimeError` before any computation; `significance` additionally requires
a fitted background.  A successful call replaces the cached bins
wholesale.  The data-dependent choice of closing times made by the two
adaptive methods needs real-valued significance and block-fitness
computations that are not in the source files; it is abstracted as the
functions `sigSelect` and `bbSelect` from the event times and the interval
to candidate changepoints, which `partitionBins` closes into a partition as
the spec prescribes. -/
def createTimeBinsRun (sigSelect bbSelect : List ℚ → ℚ → ℚ → List ℚ)
    (st : BinnerState) (start stop : ℚ) (method : String) (kw : BinKwargs) :
    BinnerState × Option PyError :=
  if method = "constant" then
    match kw.dt, kw.sigma, kw.p0 with
    | some dt, Option.none, Option.none =>
        if 0 < dt then
          ({ st with bins := some (constantBins start stop dt) }, Option.none)
        else (st, some (PyError.runtimeError "the constant method requires dt > 0"))
    | _, _, _ => (st, some (PyError.runtimeError "the constant method requires the parameter dt"))
  else if method = "significance" then
    match kw.dt, kw.sigma, kw.p0 with
    | Option.none, some sigma, Option.none =>
        if 0 < sigma then
          if st.bgFitted then
            ({ st with
                bins := some (partitionBins start stop (sigSelect st.events start stop)) },
              Option.none)
          else (st, some (PyError.runtimeError "the significance method requires a background fit"))
        else (st, some (PyError.runtimeError "the significance method requires sigma > 0"))
    | _, _, _ =>
        (st, some (PyError.runtimeError "the significance method requires the parameter sigma"))
  else if method = "bayesblocks" then
    match kw.dt, kw.sigma, kw.p0 with
    | Option.none, Option.none, some p0 =>
        if 0 < p0 ∧ p0 < 1 then
          ({ st with
              bins := some (partitionBins start stop (bbSelect st.events start stop)) },
            Option.none)
        else (st, some (PyError.runtimeError "the bayesblocks method requires 0 < p0 < 1"))
    | _, _, _ =>
        (st, some (PyError.runtimeError "the bayesblocks method requires the parameter p0"))
  else
    (st, some (PyError.runtimeError ("unknown binning method " ++ method)))

/-- Modelled from the spec: the `bins` property of a TTE instance —
"Querying bins before `create_time_bins` has ever succeeded fails with
`AttributeError`-class 'not yet computed' error". -/
def BinnerState.getBins (st : BinnerState) : Except PyError (List (ℚ × ℚ)) :=
  match st.bins with
  | some b => Except.ok b
  | Option.none => Except.error (PyError.attributeError "the bins have not been computed yet")

/-- Modelled from the spec: the `text_bins` property renders each cached
bin as text; like `bins` it fails with an `AttributeError`-class error
until a `create_time_bins` call has succeeded. -/
def BinnerState.getTextBins (st : BinnerState) : Except PyError (List String) :=
  match st.bins with
  | some b => Except.ok (b.map fun p => toString p.1 ++ "-" ++ toString p.2)
  | Option.none => Except.error (PyError.attributeError "the bins have not been computed yet")

/-- `get_path_of_user_config` from `threeML/io/package_data.py`, with paths
as component lists and the module-level `_custom_config_path` (the value of
the `THREEML_CONFIG` environment variable at import time) and the home
directory as parameters; the `mkdir` side effect creates the returned
directory and does not change the returned value.  The source assigns
`config_path` from the environment value under the `is not None` guard and
then assigns `config_path` again, unconditionally, to
`home/.config/threeML` before returning it. -/
def get_path_of_user_config (custom_config_path : Option String)
    (home : List String) : List String :=
  let config_path : Option (List String) :=
    match custom_config_path with
    | some p => some [p]
    | Option.none => Option.none
  let config_path : List String := home ++ [".config", "threeML"]
  config_path

/-- The fixed-width generator, run with enough fuel, produces the closed
form: one bin `[start+i*dt, start+(i+1)*dt)` for each
`i < ⌊(stop-cur)/dt⌋`. -/
theorem constantBinsAux_eq_map (stop dt : ℚ) (hdt : 0 < dt) :
    ∀ (fuel : Nat) (cur : ℚ), ⌊(stop - cur) / dt⌋.toNat ≤ fuel →
      constantBinsAux stop dt cur fuel =
        (List.range ⌊(stop - cur) / dt⌋.toNat).map
          (fun i : ℕ => (cur + (i : ℚ) * dt, cur + ((i : ℚ) + 1) * dt)) := by
  intro fuel
  induction fuel with
  | zero =>
      intro cur h
      simp [constantBinsAux, Nat.le_zero.mp h]
  | succ fuel ih =>
      intro cur h
      by_cases hle : cur + dt ≤ stop
      · have hk1 : (1 : ℤ) ≤ ⌊(stop - cur) / dt⌋ := by
          rw [Int.le_floor]
          push_cast
          rw [le_div_iff₀ hdt]
          linarith
        have hshift : (stop - (cur + dt)) / dt = (stop - cur) / dt - 1 := by
          field_simp
          ring
        have hfloor : ⌊(stop - (cur + dt)) / dt⌋ = ⌊(stop - cur) / dt⌋ - 1 := by
          rw [hshift]
          exact_mod_cast Int.floor_sub_int ((stop - cur) / dt) 1
        have htn : ⌊(stop - cur) / dt⌋.toNat = ⌊(stop - (cur + dt)) / dt⌋.toNat + 1 := by
          rw [hfloor]
          omega
        have hfuel : ⌊(stop - (cur + dt)) / dt⌋.toNat ≤ fuel := by omega
        have hstep : constantBinsAux stop dt cur (fuel + 1) =
            (cur, cur + dt) :: constantBinsAux stop dt (cur + dt) fuel := by
          simp [constantBinsAux, hle]
        rw [hstep, ih (cur + dt) hfuel, htn, List.range_succ_eq_map, List.map_cons,
          List.map_map]
        congr 1
        · norm_num
        · apply List.map_congr_left
          intro i _
          simp only [Function.comp_apply]
          have h1 : cur + dt + (i : ℚ) * dt = cur + ((i : ℚ) + 1) * dt := by ring
          have h2 : cur + dt + ((i : ℚ) + 1) * dt = cur + (((i : ℚ) + 1) + 1) * dt := by
            ring
          rw [h1, h2]
          push_cast
          ring_nf
      · have hlt : (stop - cur) / dt < 1 := by
          rw [div_lt_one hdt]
          linarith
        have hfl : ⌊(stop - cur) / dt⌋ < 1 := Int.floor_lt.mpr (by exact_mod_cast hlt)
        have : ⌊(stop - cur) / dt⌋.toNat = 0 := by omega
        simp [constantBinsAux, hle, this]

/-- The fixed-width binner in closed form. -/
theorem constantBins_eq_map (start stop dt : ℚ) (hdt : 0 < dt) :
    constantBins start stop dt =
      (List.range ⌊(stop - start) / dt⌋.toNat).map
        (fun i : ℕ => (start + (i : ℚ) * dt, start + ((i : ℚ) + 1) * dt)) :=
  constantBinsAux_eq_map stop dt hdt _ start le_rfl

/-- Members of `insertT x l` come from `x` or from `l`. -/
theorem mem_insertT {a x : ℚ} : ∀ {l : List ℚ}, a ∈ insertT x l → a = x ∨ a ∈ l
  | [], h => by
      simp [insertT] at h
      exact Or.inl h
  | y :: ys, h => by
      rw [insertT] at h
      split_ifs at h
      · rcases List.mem_cons.mp h with h1 | h1
        · exact Or.inl h1
        · exact Or.inr h1
      · exact Or.inr h
      · rcases List.mem_cons.mp h with h1 | h1
        · exact Or.inr (List.mem_cons.mpr (Or.inl h1))
        · rcases mem_insertT h1 with h2 | h2
          · exact Or.inl h2
          · exact Or.inr (List.mem_cons.mpr (Or.inr h2))

/-- `insertT` preserves strict sortedness. -/
theorem pairwise_insertT (x : ℚ) :
    ∀ {l : List ℚ}, l.Pairwise (· < ·) → (insertT x l).Pairwise (· < ·)
  | [], _ => by simp [insertT]
  | y :: ys, h => by
      obtain ⟨hy, hys⟩ := List.pairwise_cons.mp h
      rw [insertT]
      split_ifs with h1 h2
      · exact List.pairwise_cons.mpr
          ⟨fun a ha => by
            rcases List.mem_cons.mp ha with h3 | h3
            · exact h3 ▸ h1
            · exact lt_trans h1 (hy a h3), h⟩
      · exact h
      · have h3 : y < x := lt_of_le_of_ne (not_lt.mp h1) (Ne.symm h2)
        exact List.pairwise_cons.mpr
          ⟨fun a ha => by
            rcases mem_insertT ha with h4 | h4
            · exact h4 ▸ h3
            · exact hy a h4, pairwise_insertT x hys⟩

/-- Members of `sortUnique l` come from `l`. -/
theorem mem_sortUnique {a : ℚ} : ∀ {l : List ℚ}, a ∈ sortUnique l → a ∈ l
  | [], h => by simp [sortUnique] at h
  | x :: xs, h => by
      rw [sortUnique] at h
      rcases mem_insertT h with h1 | h1
      · exact h1 ▸ List.mem_cons_self x xs
      · exact List.mem_cons.mpr (Or.inr (mem_sortUnique h1))

/-- `sortUnique` always produces a strictly increasing list. -/
theorem pairwise_sortUnique : ∀ (l : List ℚ), (sortUnique l).Pairwise (· < ·)
  | [] => by simp [sortUnique]
  | x :: xs => by
      rw [sortUnique]
      exact pairwise_insertT x (pairwise_sortUnique xs)

/-- Pairing the consecutive edges of a strictly increasing edge list gives
an ordered, non-overlapping bin set. -/
theorem binsFromEdges_ordered :
    ∀ (edges : List ℚ), List.Chain' (· < ·) edges → binsOrdered (binsFromEdges edges)
  | [], _ => by constructor <;> simp [binsFromEdges]
  | [a], _ => by constructor <;> simp [binsFromEdges]
  | a :: b :: rest, h => by
      obtain ⟨hab, htail⟩ := List.chain'_cons.mp h
      obtain ⟨ih1, ih2⟩ := binsFromEdges_ordered (b :: rest) htail
      constructor
      · intro p hp
        rw [binsFromEdges] at hp
        rcases List.mem_cons.mp hp with h1 | h1
        · rw [h1]
          exact hab
        · exact ih1 p h1
      · rw [binsFromEdges, List.chain'_cons']
        refine ⟨?_, ih2⟩
        intro y hy
        cases rest with
        | nil => simp [binsFromEdges] at hy
        | cons c cs =>
            simp [binsFromEdges] at hy
            rw [← hy]

/-- Any partition produced from candidate changepoints over a forward
interval is ordered and non-overlapping. -/
theorem partitionBins_ordered (start stop : ℚ) (h : start < stop) (cps : List ℚ) :
    binsOrdered (partitionBins start stop cps) := by
  apply binsFromEdges_ordered
  have hmid_mem : ∀ t ∈ sortUnique
      (cps.filter fun t => decide (start < t) && decide (t < stop)),
      start < t ∧ t < stop := by
    intro t ht
    have h1 := mem_sortUnique ht
    rw [List.mem_filter] at h1
    have h2 := h1.2
    simp only [Bool.and_eq_true, decide_eq_true_eq] at h2
    exact h2
  apply List.Pairwise.chain'
  rw [List.cons_append, List.pairwise_cons]
  constructor
  · intro a ha
    rcases List.mem_append.mp ha with h1 | h1
    · exact (hmid_mem a h1).1
    · rw [List.mem_singleton] at h1
      exact h1 ▸ h
  · rw [List.pairwise_append]
    refine ⟨pairwise_sortUnique _, List.pairwise_singleton _ _, ?_⟩
    intro a ha b hb
    rw [List.mem_singleton] at hb
    exact hb ▸ (hmid_mem a ha).2

/-- Fixed-width bins with a positive width are ordered and
non-overlapping. -/
theorem constantBins_ordered (start stop dt : ℚ) (hdt : 0 < dt) :
    binsOrdered (constantBins start stop dt) := by
  rw [constantBins_eq_map start stop dt hdt]
  constructor
  · intro b hb
    obtain ⟨i, _, rfl⟩ := List.mem_map.mp hb
    simp only
    nlinarith [ (Nat.cast_nonneg i : (0:ℚ) ≤ (i : ℚ)) ]
  · rw [List.chain'_map]
    cases hn : ⌊(stop - start) / dt⌋.toNat with
    | zero => simp
    | succ m =>
        rw [List.chain'_range_succ]
        intro i _
        simp only
        push_cast
        linarith

/-- C1: for valid `(start, stop, dt)` with `dt > 0`, fixed-width binning
yields exactly `⌊(stop-start)/dt⌋` bins, each of width `dt`, with strictly
increasing edges (each bin runs forward and meets the next), the first bin
starting at or after `start` and the last stopping at or before `stop` —
the final partial bin being dropped. -/
theorem c1_constant_binning (start stop dt : ℚ) (hdt : 0 < dt) (hss : start ≤ stop) :
    ((constantBins start stop dt).length : ℤ) = ⌊(stop - start) / dt⌋
    ∧ (∀ b ∈ constantBins start stop dt, b.2 = b.1 + dt)
    ∧ (∀ b ∈ constantBins start stop dt, b.1 < b.2)
    ∧ List.Chain' (fun b c => b.2 = c.1) (constantBins start stop dt)
    ∧ (∀ b ∈ constantBins start stop dt, start ≤ b.1 ∧ b.2 ≤ stop) := by
  have hcf := constantBins_eq_map start stop dt hdt
  have hfl0 : (0 : ℤ) ≤ ⌊(stop - start) / dt⌋ :=
    Int.floor_nonneg.mpr (div_nonneg (by linarith) hdt.le)
  refine ⟨?_, ?_, ?_, ?_, ?_⟩
  · rw [hcf, List.length_map, List.length_range]
    exact Int.toNat_of_nonneg hfl0
  · intro b hb
    rw [hcf] at hb
    obtain ⟨i, _, rfl⟩ := List.mem_map.mp hb
    simp only
    ring
  · intro b hb
    rw [hcf] at hb
    obtain ⟨i, _, rfl⟩ := List.mem_map.mp hb
    simp only
    nlinarith [ (Nat.cast_nonneg i : (0:ℚ) ≤ (i : ℚ)) ]
  · rw [hcf, List.chain'_map]
    cases hn : ⌊(stop - start) / dt⌋.toNat with
    | zero => simp
    | succ m =>
        rw [List.chain'_range_succ]
        intro i _
        simp only
        push_cast
        ring
  · intro b hb
    rw [hcf] at hb
    obtain ⟨i, hi, rfl⟩ := List.mem_map.mp hb
    rw [List.mem_range] at hi
    constructor
    · simp only
      nlinarith [ (Nat.cast_nonneg i : (0:ℚ) ≤ (i : ℚ)) ]
    · simp only
      have h1 : ((i : ℤ) + 1) ≤ ⌊(stop - start) / dt⌋ := by
        have h0 : ((i : ℤ)) < ((⌊(stop - start) / dt⌋.toNat : ℕ) : ℤ) := by
          exact_mod_cast hi
        rw [Int.toNat_of_nonneg hfl0] at h0
        omega
      have h2 : ((i : ℚ) + 1) ≤ ((⌊(stop - start) / dt⌋ : ℤ) : ℚ) := by
        exact_mod_cast h1
      have h3 : ((⌊(stop - start) / dt⌋ : ℤ) : ℚ) ≤ (stop - start) / dt :=
        Int.floor_le _
      have h4 : ((i : ℚ) + 1) * dt ≤ stop - start :=
        (le_div_iff₀ hdt).mp (le_trans h2 h3)
      linarith

/-- Witness for C1: `start=0, stop=10, dt=1` yields exactly 10 bins. -/
theorem c1_constant_binning_witness :
    (0 : ℚ) < 1 ∧ (0 : ℚ) ≤ 10 ∧ (constantBins 0 10 1).length = 10 := by
  refine ⟨by norm_num, by norm_num, ?_⟩
  have h := (c1_constant_binning 0 10 1 (by norm_num) (by norm_num)).1
  have h2 : ⌊((10 : ℚ) - 0) / 1⌋ = 10 := by
    rw [show ((10 : ℚ) - 0) / 1 = ((10 : ℤ) : ℚ) by norm_num, Int.floor_intCast]
  rw [h2] at h
  exact_mod_cast h

/-- C5: `update_nuisance_parameters` raises an `AssertionError`-class
`ValidationError` on a non-mapping argument; on a mapping it succeeds and
the `nuisance_parameters` property afterwards returns exactly the given
map, replaced wholesale. -/
theorem c5_update_nuisance_parameters (st : PluginState) (v : PyVal) :
    (v.isDict = false →
      st.update_nuisance_parameters v =
        (st, some (PyError.assertionError "nuisance_parameters are not a dict and are invalid!")))
    ∧ (v.isDict = true →
        (st.update_nuisance_parameters v).2 = Option.none ∧
          (st.update_nuisance_parameters v).1.get_nuisance_parameters = v) := by
  constructor
  · intro h
    simp [PluginState.update_nuisance_parameters, h]
  · intro h
    simp [PluginState.update_nuisance_parameters, h, PluginState.get_nuisance_parameters]

/-- Witness for C5 at a concrete state, a non-dict and a dict argument. -/
theorem c5_update_nuisance_parameters_witness :
    ((PluginState.mk "NAI3" (PyVal.dict []) Option.none).update_nuisance_parameters
        (PyVal.int 3) =
      (PluginState.mk "NAI3" (PyVal.dict []) Option.none,
        some (PyError.assertionError "nuisance_parameters are not a dict and are invalid!")))
    ∧ ((PluginState.mk "NAI3" (PyVal.dict []) Option.none).update_nuisance_parameters
          (PyVal.dict [("eff_area", 7)])).1.get_nuisance_parameters =
        PyVal.dict [("eff_area", 7)] := by
  constructor
  · exact (c5_update_nuisance_parameters _ (PyVal.int 3)).1 rfl
  · exact ((c5_update_nuisance_parameters _ (PyVal.dict [("eff_area", 7)])).2 rfl).2

/-- C9: on a non-mapping argument, `update_nuisance_parameters` raises
before the assignment, so the call returns the state it was given —
the stored nuisance-parameter map is unchanged. -/
theorem c9_update_nuisance_parameters_atomic (st : PluginState) (v : PyVal)
    (h : v.isDict = false) :
    st.update_nuisance_parameters v =
      (st, some (PyError.assertionError "nuisance_parameters are not a dict and are invalid!")) := by
  simp [PluginState.update_nuisance_parameters, h]

/-- Witness for C9 at a concrete state and a `None` argument. -/
theorem c9_update_nuisance_parameters_atomic_witness :
    (PluginState.mk "NAI3" (PyVal.dict [("k", 1)]) Option.none).update_nuisance_parameters
        PyVal.pyNone =
      (PluginState.mk "NAI3" (PyVal.dict [("k", 1)]) Option.none,
        some (PyError.assertionError "nuisance_parameters are not a dict and are invalid!")) :=
  c9_update_nuisance_parameters_atomic _ PyVal.pyNone rfl

/-- C6: constructing a plugin named "total" raises an `AssertionError`;
so does constructing one whose nuisance-parameter argument is not a
mapping; after a successful construction the `name` property returns
exactly the name given. -/
theorem c6_constructor_validation :
    (∀ v : PyVal, ∃ m,
        PluginPrototype.init "total" v = Except.error (PyError.assertionError m))
    ∧ (∀ (name : String) (v : PyVal), isPyIdentifier name = true →
        pyLower name ≠ "total" → v.isDict = false →
        PluginPrototype.init name v =
          Except.error
            (PyError.assertionError "nuisance_parameters are not a dict and are invalid!"))
    ∧ (∀ (name : String) (v : PyVal) (st : PluginState),
        PluginPrototype.init name v = Except.ok st → st.getName = name) := by
  refine ⟨?_, ?_, ?_⟩
  · intro v
    exact ⟨"Sorry, you cannot use 'total' as name for a plugin.", rfl⟩
  · intro name v h1 h2 h3
    simp [PluginPrototype.init, invalid_plugin_name, h1, h2, h3]
  · intro name v st h
    unfold PluginPrototype.init at h
    split at h
    · exact absurd h (by simp)
    · split at h
      · exact absurd h (by simp)
      · split at h
        · exact absurd h (by simp)
        · cases h
          rfl

/-- Witness for C6: the reserved name, a non-dict argument, and a
successful construction whose name reads back. -/
theorem c6_constructor_validation_witness :
    (∃ m, PluginPrototype.init "total" (PyVal.dict []) =
      Except.error (PyError.assertionError m))
    ∧ PluginPrototype.init "NAI3" (PyVal.int 3) =
        Except.error
          (PyError.assertionError "nuisance_parameters are not a dict and are invalid!")
    ∧ (PluginState.mk "NAI3" (PyVal.dict []) Option.none).getName = "NAI3" := by
  refine ⟨c6_constructor_validation.1 (PyVal.dict []), ?_, ?_⟩
  · exact c6_constructor_validation.2.1 "NAI3" (PyVal.int 3) (by decide) (by decide) rfl
  · exact c6_constructor_validation.2.2 "NAI3" (PyVal.dict [])
      (PluginState.mk "NAI3" (PyVal.dict []) Option.none) rfl

/-- C8: the reserved-name check lower-cases the name first, so every name
whose lower-cased form is "total" is rejected with an `AssertionError` at
construction. -/
theorem c8_reserved_name_case_insensitive (name : String) (v : PyVal)
    (h : pyLower name = "total") :
    ∃ m, PluginPrototype.init name v = Except.error (PyError.assertionError m) := by
  by_cases hid : isPyIdentifier name = true
  · exact ⟨"Sorry, you cannot use 'total' as name for a plugin.",
      by simp [PluginPrototype.init, invalid_plugin_name, hid, h]⟩
  · exact ⟨"invalid plugin name",
      by simp [PluginPrototype.init, invalid_plugin_name, hid]⟩

/-- Witness for C8 at the mixed-case name "Total". -/
theorem c8_reserved_name_case_insensitive_witness :
    ∃ m, PluginPrototype.init "Total" (PyVal.dict []) =
      Except.error (PyError.assertionError m) :=
  c8_reserved_name_case_insensitive "Total" (PyVal.dict []) (by decide)

/-- C7: setting `tag` with a 2-element spec stores
`(independent_variable, start, None)` and with a 3-element spec stores
`(independent_variable, start, end)`, and the read-back tag is that
triple; any other length raises `ValueError` and leaves the previous tag
unchanged. -/
theorem c7_tag_get_set (st : PluginState) (iv s e : PyVal) (spec : List PyVal) :
    (st.set_tag [iv, s] = ({ st with tag := some (iv, s, PyVal.pyNone) }, Option.none)
      ∧ (st.set_tag [iv, s]).1.get_tag = some (iv, s, PyVal.pyNone))
    ∧ (st.set_tag [iv, s, e] = ({ st with tag := some (iv, s, e) }, Option.none)
      ∧ (st.set_tag [iv, s, e]).1.get_tag = some (iv, s, e))
    ∧ (spec.length ≠ 2 → spec.length ≠ 3 →
        st.set_tag spec =
          (st, some (PyError.valueError
            "Tag specification should be (independent_variable, start[, end])"))) := by
  refine ⟨⟨rfl, rfl⟩, ⟨rfl, rfl⟩, ?_⟩
  intro h2 h3
  match spec with
  | [] => rfl
  | [_] => rfl
  | [_, _] => exact absurd rfl h2
  | [_, _, _] => exact absurd rfl h3
  | _ :: _ :: _ :: _ :: _ => rfl

/-- Witness for C7: a concrete 2-element set, a 3-element set and a
1-element failure. -/
theorem c7_tag_get_set_witness :
    ((PluginState.mk "NAI3" (PyVal.dict []) Option.none).set_tag
        [PyVal.str "time", PyVal.int 0]).1.get_tag =
      some (PyVal.str "time", PyVal.int 0, PyVal.pyNone)
    ∧ ((PluginState.mk "NAI3" (PyVal.dict []) Option.none).set_tag
        [PyVal.str "time", PyVal.int 0, PyVal.int 10]).1.get_tag =
      some (PyVal.str "time", PyVal.int 0, PyVal.int 10)
    ∧ (PluginState.mk "NAI3" (PyVal.dict []) Option.none).set_tag [PyVal.int 0] =
      (PluginState.mk "NAI3" (PyVal.dict []) Option.none,
        some (PyError.valueError
          "Tag specification should be (independent_variable, start[, end])")) := by
  refine ⟨?_, ?_, ?_⟩
  · exact (c7_tag_get_set _ (PyVal.str "time") (PyVal.int 0) (PyVal.int 10) []).1.2
  · exact (c7_tag_get_set _ (PyVal.str "time") (PyVal.int 0) (PyVal.int 10) []).2.1.2
  · exact (c7_tag_get_set _ (PyVal.str "time") (PyVal.int 0) (PyVal.int 10)
      [PyVal.int 0]).2.2 (by decide) (by decide)

/-- C10: `get_path_of_user_config` ignores the custom path read from the
`THREEML_CONFIG` environment variable — the second, unconditional
assignment overwrites it — and returns `home/.config/threeML` for every
value of the variable. -/
theorem c10_user_config_ignores_env (custom : Option String) (home : List String) :
    get_path_of_user_config custom home = home ++ [".config", "threeML"] := rfl

/-- C2: `create_time_bins` with an unrecognised method, or with a
recognised method missing its required parameter, raises a
`RuntimeError`-class `ConfigurationError` and returns the state it was
given — the previously cached bins are untouched. -/
theorem c2_create_time_bins_validation (sigS bbS : List ℚ → ℚ → ℚ → List ℚ)
    (st : BinnerState) (start stop : ℚ) (kw : BinKwargs) (method : String) :
    (method ≠ "constant" → method ≠ "significance" → method ≠ "bayesblocks" →
      createTimeBinsRun sigS bbS st start stop method kw =
        (st, some (PyError.runtimeError ("unknown binning method " ++ method))))
    ∧ (kw.dt = Option.none →
        createTimeBinsRun sigS bbS st start stop "constant" kw =
          (st, some (PyError.runtimeError "the constant method requires the parameter dt")))
    ∧ (kw.sigma = Option.none →
        createTimeBinsRun sigS bbS st start stop "significance" kw =
          (st, some (PyError.runtimeError "the significance method requires the parameter sigma")))
    ∧ (kw.p0 = Option.none →
        createTimeBinsRun sigS bbS st start stop "bayesblocks" kw =
          (st, some (PyError.runtimeError "the bayesblocks method requires the parameter p0"))) := by
  obtain ⟨d, s, p⟩ := kw
  refine ⟨?_, ?_, ?_, ?_⟩
  · intro h1 h2 h3
    simp [createTimeBinsRun, h1, h2, h3]
  · intro h
    have hd : d = Option.none := h
    subst hd
    rfl
  · intro h
    have hs : s = Option.none := h
    subst hs
    cases d <;> rfl
  · intro h
    have hp : p = Option.none := h
    subst hp
    cases d <;> cases s <;> rfl

/-- Witness for C2: an unknown method and each method missing its
parameter, on a concrete instance. -/
theorem c2_create_time_bins_validation_witness :
    createTimeBinsRun (fun _ _ _ => []) (fun _ _ _ => []) (BinnerState.initial [] false)
        0 10 "not_a_method" (BinKwargs.mk Option.none Option.none Option.none) =
      (BinnerState.initial [] false,
        some (PyError.runtimeError ("unknown binning method " ++ "not_a_method")))
    ∧ createTimeBinsRun (fun _ _ _ => []) (fun _ _ _ => []) (BinnerState.initial [] false)
        0 10 "constant" (BinKwargs.mk Option.none Option.none (some (1/10))) =
      (BinnerState.initial [] false,
        some (PyError.runtimeError "the constant method requires the parameter dt"))
    ∧ createTimeBinsRun (fun _ _ _ => []) (fun _ _ _ => []) (BinnerState.initial [] false)
        0 10 "significance" (BinKwargs.mk (some 1) Option.none Option.none) =
      (BinnerState.initial [] false,
        some (PyError.runtimeError "the significance method requires the parameter sigma"))
    ∧ createTimeBinsRun (fun _ _ _ => []) (fun _ _ _ => []) (BinnerState.initial [] false)
        0 10 "bayesblocks" (BinKwargs.mk Option.none Option.none Option.none) =
      (BinnerState.initial [] false,
        some (PyError.runtimeError "the bayesblocks method requires the parameter p0")) := by
  refine ⟨?_, ?_, ?_, ?_⟩
  · exact (c2_create_time_bins_validation _ _ _ 0 10 _ "not_a_method").1
      (by decide) (by decide) (by decide)
  · exact (c2_create_time_bins_validation _ _ _ 0 10
      (BinKwargs.mk Option.none Option.none (some (1/10))) "x").2.1 rfl
  · exact (c2_create_time_bins_validation _ _ _ 0 10
      (BinKwargs.mk (some 1) Option.none Option.none) "x").2.2.1 rfl
  · exact (c2_create_time_bins_validation _ _ _ 0 10
      (BinKwargs.mk Option.none Option.none Option.none) "x").2.2.2 rfl

/-- C3: every bin set produced by a successful `create_time_bins` call,
with any of the three methods, is ordered and non-overlapping: each bin
runs forward and consecutive bins do not overlap. -/
theorem c3_create_time_bins_invariant (sigS bbS : List ℚ → ℚ → ℚ → List ℚ)
    (st : BinnerState) (start stop : ℚ) (method : String) (kw : BinKwargs)
    (st2 : BinnerState) (hss : start < stop)
    (hok : createTimeBinsRun sigS bbS st start stop method kw = (st2, Option.none))
    (bs : List (ℚ × ℚ)) (hbs : st2.bins = some bs) :
    binsOrdered bs := by
  unfold createTimeBinsRun at hok
  repeat' split at hok
  all_goals injection hok with hA hB
  all_goals
    first
      | exact Option.noConfusion hB
      | (subst hA
         obtain rfl := Option.some.inj hbs
         first
           | exact constantBins_ordered _ _ _ (by assumption)
           | exact partitionBins_ordered _ _ hss _)

/-- Witness for C3: a concrete successful constant-width call whose bins
are ordered. -/
theorem c3_create_time_bins_invariant_witness :
    binsOrdered (constantBins 0 2 1) := by
  exact c3_create_time_bins_invariant (fun _ _ _ => []) (fun _ _ _ => [])
    (BinnerState.initial [] false) 0 2 "constant"
    (BinKwargs.mk (some 1) Option.none Option.none)
    (BinnerState.mk [] false (some (constantBins 0 2 1)))
    (by norm_num) rfl (constantBins 0 2 1) rfl

/-- C4: before any successful `create_time_bins` call — on a fresh
instance, and still after any failed call — accessing the `bins` and
`text_bins` properties raises an `AttributeError`-class
`NotComputedError`. -/
theorem c4_bins_before_compute (events : List ℚ) (bg : Bool) (st st2 : BinnerState)
    (sigS bbS : List ℚ → ℚ → ℚ → List ℚ) (start stop : ℚ) (method : String)
    (kw : BinKwargs) (e : PyError) :
    (BinnerState.initial events bg).bins = Option.none
    ∧ (st.bins = Option.none →
        st.getBins =
          Except.error (PyError.attributeError "the bins have not been computed yet")
        ∧ st.getTextBins =
          Except.error (PyError.attributeError "the bins have not been computed yet"))
    ∧ (createTimeBinsRun sigS bbS st start stop method kw = (st2, some e) →
        st2.bins = st.bins) := by
  refine ⟨rfl, ?_, ?_⟩
  · intro h
    constructor
    · simp [BinnerState.getBins, h]
    · simp [BinnerState.getTextBins, h]
  · intro hfail
    unfold createTimeBinsRun at hfail
    repeat' split at hfail
    all_goals injection hfail with hA hB
    all_goals
      first
        | exact Option.noConfusion hB
        | (subst hA; rfl)

/-- Witness for C4: on a fresh instance both properties raise. -/
theorem c4_bins_before_compute_witness :
    (BinnerState.initial [] false).getBins =
      Except.error (PyError.attributeError "the bins have not been computed yet")
    ∧ (BinnerState.initial [] false).getTextBins =
      Except.error (PyError.attributeError "the bins have not been computed yet") :=
  (c4_bins_before_compute [] false (BinnerState.initial [] false)
    (BinnerState.initial [] false) (fun _ _ _ => []) (fun _ _ _ => []) 0 0 "x"
    (BinKwargs.mk Option.none Option.none Option.none)
    (PyError.runtimeError "m")).2.1 rfl

end ThreeML
